import Mathlib

/-!
Shallow embedding of the JACQ memory-graph schema
(`src/memory/schema.py`) and the touch/promotion logic used by
`examples/session_example.py`, together with theorems settling the
specification claims about them.

Timestamps are modelled as natural numbers, float scores as rationals,
the open-ended `value`/`metadata` payloads as strings, and the
pydantic construction step as an explicit validation function that
returns `Except`.
-/

namespace JACQ

/-- Enum `EntityType` from `schema.py`: the kinds of entities the system
can remember. -/
inductive EntityType where
  | person
  | project
  | concept
  | decision
  | preference
  | file
  | conversation
deriving DecidableEq

/-- The string value carried by each `EntityType` enum member. -/
def EntityType.value : EntityType → String
  | .person => "person"
  | .project => "project"
  | .concept => "concept"
  | .decision => "decision"
  | .preference => "preference"
  | .file => "file"
  | .conversation => "conversation"

/-- Enum `FactStatus` from `schema.py`: lifecycle status of a fact. -/
inductive FactStatus where
  | staged
  | confirmed
  | superseded
  | retracted
deriving DecidableEq

/-- Model `Entity` from `schema.py`: a node in the memory graph. The
default-factory fields (`id`, `created_at`, `updated_at`) are supplied
by the constructor wrapper `mkEntity` below. -/
structure Entity where
  id : String
  entity_type : EntityType
  name : String
  description : Option String := none
  created_at : Nat
  updated_at : Nat
  metadata : List (String × String) := []
deriving DecidableEq

/-- Method `Entity.__eq__` from `schema.py`: two entities compare equal
exactly when their ids are equal (other fields are ignored). -/
def entityEq (e1 e2 : Entity) : Bool :=
  e1.id == e2.id

/-- Construction of an `Entity` as pydantic performs it: the caller
supplies `entity_type`, `name` and the optional fields; the fresh id
and the current time stand in for the default factories. `schema.py`
declares no field constraints on `Entity`, so construction of a typed
input never fails. -/
def mkEntity (entity_type : EntityType) (name : String)
    (description : Option String) (metadata : List (String × String))
    (freshId : String) (now : Nat) : Entity :=
  { id := freshId
    entity_type := entity_type
    name := name
    description := description
    created_at := now
    updated_at := now
    metadata := metadata }

/-- The pydantic validation step for `Entity`. `schema.py` places no
constraint on any `Entity` field (in particular none on `name`), so
validation always succeeds. -/
def validateEntity (e : Entity) : Except String Entity :=
  .ok e

/-- Model `Fact` from `schema.py`: an edge or attribute in the memory
graph.

The field `relevance` is Modelled from the spec: `schema.py` declares
no relevance field on `Fact`, but the spec (§3, §9) fixes `relevance`
as a first-class Fact field with default 1.0, decayed at 0.05 per
week; it is carried here so the spec-modelled decay rule below has a
field to act on. All other fields follow `schema.py`. -/
structure Fact where
  id : String
  subject_id : String
  predicate : String
  object_id : Option String := none
  value : Option String := none
  status : FactStatus := .staged
  confidence : ℚ := 1/2
  access_count : Int := 0
  created_at : Nat
  last_accessed : Nat
  source : Option String := none
  relevance : ℚ := 1
deriving DecidableEq

/-- The pydantic validation step for `Fact`. The only field
constraint in `schema.py` is `confidence: Field(ge=0.0, le=1.0)`;
no other field (in particular neither `predicate` nor `access_count`)
is constrained. -/
def validateFact (f : Fact) : Except String Fact :=
  if f.confidence < 0 then .error ("confidence out of range")
  else if 1 < f.confidence then .error ("confidence out of range")
  else .ok f

/-- Construction of a `Fact` from `subject_id` and `predicate` with
every optional argument omitted: all remaining fields take their
declared defaults, and the fresh id and current time stand in for the
default factories (`created_at` and `last_accessed` both default to
the construction time). -/
def freshFact (subject_id : String) (predicate : String)
    (freshId : String) (now : Nat) : Fact :=
  { id := freshId
    subject_id := subject_id
    predicate := predicate
    created_at := now
    last_accessed := now }

/-- Method `Fact.is_relationship` from `schema.py`: true when `object_id`
is set. -/
def Fact.is_relationship (f : Fact) : Bool :=
  f.object_id.isSome

/-- Method `Fact.is_attribute` from `schema.py`: true when `value` is set
(the code does not consult `object_id`). -/
def Fact.is_attribute (f : Fact) : Bool :=
  f.value.isSome

/-- The touch/reinforcement step as performed inline by
`simulate_session_2` in `examples/session_example.py`: increment
`access_count`, set `last_accessed` to now, and if the resulting
`access_count` is at least 3, set `status` to CONFIRMED. -/
def touch (f : Fact) (now : Nat) : Fact :=
  let f1 : Fact := { f with
    access_count := f.access_count + 1
    last_accessed := now }
  if f1.access_count ≥ 3 then { f1 with status := .confirmed } else f1

/-- Modelled from the spec: no decay implementation exists in the
inspected sources (§9 notes the decay rate appears in no shown
implementation). Spec §4.2 fixes the rule
`relevance_new = max(0.0, relevance_old - 0.05 * weeks_inactive)`,
acting on `relevance` only: `status` and `last_accessed` are not
changed. -/
def decay (f : Fact) (weeks_inactive : ℚ) : Fact :=
  { f with relevance := max 0 (f.relevance - (5/100) * weeks_inactive) }

/-- Model `Interaction` from `schema.py`: a record of one user-system
exchange. -/
structure Interaction where
  id : String
  session_id : String
  timestamp : Nat
  user_input : String
  system_response : String
  entities_mentioned : List String := []
  facts_created : List String := []
  facts_accessed : List String := []
deriving DecidableEq

/-- Model `MemoryContext` from `schema.py`: the context retrieved for a
query. -/
structure MemoryContext where
  relevant_entities : List Entity := []
  relevant_facts : List Fact := []
  recent_interactions : List Interaction := []
deriving DecidableEq

/-- Rendering of `None` by Python string formatting, for the
`object_id`/`value` f-string slots in `to_prompt_context`. -/
def renderOpt (o : Option String) : String :=
  match o with
  | some s => s
  | none => "None"

/-- The lines emitted for one entity inside the Known Entities
section of `to_prompt_context`: the bold name with the entity type,
then the indented description line guarded by Python truthiness
(`if entity.description:`), which skips both a missing and an
empty-string description. -/
def renderEntityLines (e : Entity) : List String :=
  ("- **" ++ e.name ++ "** (" ++ e.entity_type.value ++ ")") ::
    (match e.description with
      | some d => if d = "" then [] else ["  " ++ d]
      | none => [])

/-- The line emitted for one fact inside the Relevant Facts section
of `to_prompt_context`: relationship facts render the predicate with
the object reference, all other facts render the predicate with the
value. -/
def renderFactLine (f : Fact) : String :=
  if f.is_relationship then
    "- " ++ f.predicate ++ ": relates to entity " ++ renderOpt f.object_id
  else
    "- " ++ f.predicate ++ ": " ++ renderOpt f.value

/-- The list `lines` built by `MemoryContext.to_prompt_context`
before joining: the heading, a blank, then the entity section when
`relevant_entities` is non-empty and the fact section when
`relevant_facts` is non-empty. -/
def toPromptLines (ctx : MemoryContext) : List String :=
  ["## Memory Context", ""]
    ++ (if ctx.relevant_entities.isEmpty then []
        else "### Known Entities" ::
          (ctx.relevant_entities.map renderEntityLines).flatten ++ [""])
    ++ (if ctx.relevant_facts.isEmpty then []
        else "### Relevant Facts" ::
          ctx.relevant_facts.map renderFactLine ++ [""])

/-- Method `MemoryContext.to_prompt_context` from `schema.py`: the lines
joined with newlines. -/
def to_prompt_context (ctx : MemoryContext) : String :=
  String.intercalate ("\n") (toPromptLines ctx)

/-- Sample fact used by witnesses: STAGED, with the given starting
`access_count`. -/
def sampleFact (c : Int) : Fact :=
  { id := "f", subject_id := "s", predicate := "p", created_at := 0, last_accessed := 0, access_count := c }

/-- Sample CONFIRMED fact used by witnesses, with the given starting
`access_count`. -/
def sampleConfirmedFact (c : Int) : Fact :=
  { sampleFact c with status := .confirmed }

/-- C1: for a STAGED fact, each touch increments `access_count` by 1
and sets `last_accessed` to now; the status becomes CONFIRMED exactly
when the incremented count reaches 3, and stays STAGED before that;
for a CONFIRMED fact, touches change only `access_count` and
`last_accessed` and never set the status back to STAGED. -/
theorem touch_promotion (f : Fact) (now : Nat) :
    (touch f now).access_count = f.access_count + 1 ∧
    (touch f now).last_accessed = now ∧
    (f.status = .staged →
      ((touch f now).status = .confirmed ↔ 3 ≤ f.access_count + 1)) ∧
    (f.status = .staged → f.access_count + 1 < 3 →
      (touch f now).status = .staged) ∧
    (f.status = .confirmed → (touch f now).status = .confirmed) ∧
    (touch f now).id = f.id ∧
    (touch f now).subject_id = f.subject_id ∧
    (touch f now).predicate = f.predicate ∧
    (touch f now).object_id = f.object_id ∧
    (touch f now).value = f.value ∧
    (touch f now).confidence = f.confidence ∧
    (touch f now).created_at = f.created_at ∧
    (touch f now).source = f.source ∧
    (touch f now).relevance = f.relevance := by
  by_cases h : f.access_count + 1 ≥ 3
  · have ht : touch f now = { f with access_count := f.access_count + 1, last_accessed := now, status := .confirmed } := by
      simp only [touch]
      rw [if_pos h]
    rw [ht]
    refine ⟨rfl, rfl, fun _ => ⟨fun _ => h, fun _ => rfl⟩,
      fun _ hlt => absurd h (not_le.mpr hlt),
      fun _ => rfl, rfl, rfl, rfl, rfl, rfl, rfl, rfl, rfl, rfl⟩
  · have ht : touch f now = { f with access_count := f.access_count + 1, last_accessed := now } := by
      simp only [touch]
      rw [if_neg h]
    rw [ht]
    refine ⟨rfl, rfl, ?_, fun hs _ => hs, fun hc => hc,
      rfl, rfl, rfl, rfl, rfl, rfl, rfl, rfl, rfl⟩
    intro hs
    constructor
    · intro hcontra
      have hc2 : f.status = FactStatus.confirmed := hcontra
      rw [hs] at hc2
      exact FactStatus.noConfusion hc2
    · intro h3
      exact absurd h3 h

/-- Closed instance of `touch_promotion`: a fresh STAGED fact touched
with two prior accesses is CONFIRMED at that third touch, a fact with
fewer prior accesses stays STAGED, a CONFIRMED fact stays CONFIRMED,
and `last_accessed` is set to the touch time. -/
theorem touch_promotion_witness :
    (touch (sampleFact 2) 7).status = .confirmed ∧
    (touch (sampleFact 1) 7).status = .staged ∧
    (touch (sampleConfirmedFact 3) 7).status = .confirmed ∧
    (touch (sampleFact 2) 7).last_accessed = 7 := by
  refine ⟨?_, ?_, ?_, ?_⟩
  · exact ((touch_promotion (sampleFact 2) 7).2.2.1 rfl).mpr (by decide)
  · exact (touch_promotion (sampleFact 1) 7).2.2.2.1 rfl (by decide)
  · exact (touch_promotion (sampleConfirmedFact 3) 7).2.2.2.2.1 rfl
  · exact (touch_promotion (sampleFact 2) 7).2.1

/-- C2: decay follows `max 0 (relevance - 0.05 * w)`: the numeric
example 1.0 decayed over 2 weeks gives 0.9, decay with `w = 0` is a
no-op, the result is non-increasing in `w`, floored at 0, never above
the old relevance, and `status` and `last_accessed` are unchanged. -/
theorem decay_rule (f : Fact) (w w1 w2 : ℚ) :
    (decay f w).relevance = max 0 (f.relevance - (5/100) * w) ∧
    (f.relevance = 1 → (decay f 2).relevance = 9/10) ∧
    (0 ≤ f.relevance → decay f 0 = f) ∧
    (w1 ≤ w2 → (decay f w2).relevance ≤ (decay f w1).relevance) ∧
    0 ≤ (decay f w).relevance ∧
    (0 ≤ w → 0 ≤ f.relevance → (decay f w).relevance ≤ f.relevance) ∧
    (decay f w).status = f.status ∧
    (decay f w).last_accessed = f.last_accessed := by
  refine ⟨rfl, ?_, ?_, ?_, le_max_left 0 _, ?_, rfl, rfl⟩
  · intro h1
    show max 0 (f.relevance - (5/100) * 2) = 9/10
    rw [h1]
    norm_num
  · intro h0
    show ({ f with relevance := max 0 (f.relevance - (5/100) * 0) } : Fact) = f
    have hr : max 0 (f.relevance - (5/100) * 0) = f.relevance := by
      rw [mul_zero, sub_zero]
      exact max_eq_right h0
    rw [hr]
  · intro h12
    show max 0 (f.relevance - (5/100) * w2) ≤ max 0 (f.relevance - (5/100) * w1)
    apply max_le_max le_rfl
    apply sub_le_sub_left
    apply mul_le_mul_of_nonneg_left h12
    norm_num
  · intro hw hr
    show max 0 (f.relevance - (5/100) * w) ≤ f.relevance
    apply max_le hr
    apply sub_le_self
    positivity

/-- Closed instance of `decay_rule`: a fresh fact (relevance 1)
decayed over 2 weeks has relevance 0.9, and is unchanged by a decay
over 0 weeks. -/
theorem decay_rule_witness :
    (decay (sampleFact 0) 2).relevance = 9/10 ∧
    decay (sampleFact 0) 0 = sampleFact 0 ∧
    (decay (sampleFact 0) 2).status = (sampleFact 0).status := by
  refine ⟨?_, ?_, ?_⟩
  · exact (decay_rule (sampleFact 0) 2 0 0).2.1 rfl
  · exact (decay_rule (sampleFact 0) 0 0 0).2.2.1 (by norm_num [sampleFact])
  · exact (decay_rule (sampleFact 0) 2 0 0).2.2.2.2.2.2.1

/-- C3: a Fact constructed from `subject_id` and `predicate` with all
optional arguments omitted has relevance 1, access count 0, and
STAGED status. -/
theorem fresh_fact_defaults (s p fid : String) (now : Nat) :
    (freshFact s p fid now).relevance = 1 ∧
    (freshFact s p fid now).access_count = 0 ∧
    (freshFact s p fid now).status = .staged :=
  ⟨rfl, rfl, rfl⟩

/-- C4: Fact validation accepts any confidence inside [0, 1] and
stores it unchanged, rejects any confidence outside the range (in
particular 1.5), accepts 0.8, and the default confidence is 0.5. -/
theorem confidence_validation (f : Fact) (s p fid : String) (now : Nat) :
    (0 ≤ f.confidence → f.confidence ≤ 1 → validateFact f = .ok f) ∧
    (1 < f.confidence → validateFact f = .error ("confidence out of range")) ∧
    (f.confidence < 0 → validateFact f = .error ("confidence out of range")) ∧
    validateFact { freshFact s p fid now with confidence := 3/2 } = .error ("confidence out of range") ∧
    validateFact { freshFact s p fid now with confidence := 4/5 } = .ok { freshFact s p fid now with confidence := 4/5 } ∧
    (freshFact s p fid now).confidence = 1/2 := by
  refine ⟨?_, ?_, ?_, ?_, ?_, rfl⟩
  · intro h0 h1
    unfold validateFact
    rw [if_neg (not_lt.mpr h0), if_neg (not_lt.mpr h1)]
  · intro h1
    unfold validateFact
    rw [if_neg (not_lt.mpr (le_of_lt (lt_of_lt_of_le one_pos (le_of_lt h1)))), if_pos h1]
  · intro h0
    unfold validateFact
    rw [if_pos h0]
  · unfold validateFact
    rw [if_neg (by norm_num), if_pos (by norm_num)]
  · unfold validateFact
    rw [if_neg (by norm_num), if_neg (by norm_num)]

/-- Closed instance of `confidence_validation`: a fact with in-range
confidence passes validation unchanged. -/
theorem confidence_validation_witness :
    validateFact (sampleFact 0) = .ok (sampleFact 0) ∧
    validateFact { sampleFact 0 with confidence := 3/2 } = .error ("confidence out of range") := by
  refine ⟨?_, ?_⟩
  · exact (confidence_validation (sampleFact 0) ("s") ("p") ("f") 0).1 (by norm_num [sampleFact]) (by norm_num [sampleFact])
  · exact (confidence_validation { sampleFact 0 with confidence := 3/2 } ("s") ("p") ("f") 0).2.1 (by norm_num [sampleFact])

/-- Counterexample to C5: constructing a Fact with an empty predicate
string passes validation (the code places no constraint on
`predicate`), so it does not fail with a ValidationError. -/
theorem empty_predicate_accepted :
    validateFact (freshFact ("e1") ("") ("f1") 0) = .ok (freshFact ("e1") ("") ("f1") 0) := by
  unfold validateFact
  rw [if_neg (by norm_num [freshFact]), if_neg (by norm_num [freshFact])]

/-- C5 amended: the predicate is never validated; whether Fact
construction succeeds depends only on the confidence being inside
[0, 1], for an empty and a non-empty predicate alike. -/
theorem predicate_not_validated (f : Fact) (p : String) :
    ((∃ g, validateFact { f with predicate := p } = .ok g) ↔
      (0 ≤ f.confidence ∧ f.confidence ≤ 1)) := by
  unfold validateFact
  by_cases h0 : f.confidence < 0
  · rw [if_pos h0]
    constructor
    · rintro ⟨g, hg⟩
      exact Except.noConfusion hg
    · rintro ⟨ha, _⟩
      exact absurd h0 (not_lt.mpr ha)
  · rw [if_neg h0]
    by_cases h1 : 1 < f.confidence
    · rw [if_pos h1]
      constructor
      · rintro ⟨g, hg⟩
        exact Except.noConfusion hg
      · rintro ⟨_, hb⟩
        exact absurd h1 (not_lt.mpr hb)
    · rw [if_neg h1]
      exact ⟨fun _ => ⟨not_lt.mp h0, not_lt.mp h1⟩, fun _ => ⟨_, rfl⟩⟩

/-- Counterexample to C6: constructing an Entity with an empty name
passes validation (the code places no constraint on `name`), so it
does not fail with a ValidationError. -/
theorem empty_entity_name_accepted :
    validateEntity (mkEntity .person ("") none [] ("e1") 0) = .ok (mkEntity .person ("") none [] ("e1") 0) :=
  rfl

/-- C6 amended: Entity construction never fails (the code places no
constraint on any field, in particular none on `name`); for any name,
empty or not, and any recognized entity type it succeeds with the
supplied fresh id and current timestamps. -/
theorem entity_construction_total (ty : EntityType) (name : String)
    (d : Option String) (m : List (String × String)) (fid : String) (now : Nat) :
    validateEntity (mkEntity ty name d m fid now) = .ok (mkEntity ty name d m fid now) ∧
    (mkEntity ty name d m fid now).id = fid ∧
    (mkEntity ty name d m fid now).entity_type = ty ∧
    (mkEntity ty name d m fid now).name = name ∧
    (mkEntity ty name d m fid now).created_at = now ∧
    (mkEntity ty name d m fid now).updated_at = now :=
  ⟨rfl, rfl, rfl, rfl, rfl, rfl⟩

/-- Counterexample to C7: a Fact with both `object_id` and `value`
set reports `is_relationship` and `is_attribute` both true, because
`is_attribute` does not check that `object_id` is unset. -/
theorem both_flags_true :
    Fact.is_relationship { sampleFact 0 with object_id := some ("o"), value := some ("v") } = true ∧
    Fact.is_attribute { sampleFact 0 with object_id := some ("o"), value := some ("v") } = true :=
  ⟨rfl, rfl⟩

/-- C7 amended: `is_relationship` is true iff `object_id` is set and
`is_attribute` is true iff `value` is set (without regard to
`object_id`); a fact with only `value` set reports attribute but not
relationship, a fact with only `object_id` set reports the inverse,
and a fact with both set reports both. -/
theorem attribute_relationship_flags (f : Fact) :
    f.is_relationship = f.object_id.isSome ∧
    f.is_attribute = f.value.isSome ∧
    (f.object_id = none → f.value.isSome = true →
      f.is_attribute = true ∧ f.is_relationship = false) ∧
    (f.value = none → f.object_id.isSome = true →
      f.is_relationship = true ∧ f.is_attribute = false) ∧
    (f.object_id.isSome = true → f.value.isSome = true →
      f.is_relationship = true ∧ f.is_attribute = true) := by
  refine ⟨rfl, rfl, ?_, ?_, ?_⟩
  · intro ho hv
    exact ⟨hv, by simp [Fact.is_relationship, ho]⟩
  · intro hv ho
    exact ⟨ho, by simp [Fact.is_attribute, hv]⟩
  · intro ho hv
    exact ⟨ho, hv⟩

/-- Closed instance of `attribute_relationship_flags`: an
attribute-only fact and a relationship-only fact report exactly one
flag each. -/
theorem attribute_relationship_flags_witness :
    (Fact.is_attribute { sampleFact 0 with value := some ("v") } = true ∧
      Fact.is_relationship { sampleFact 0 with value := some ("v") } = false) ∧
    (Fact.is_relationship { sampleFact 0 with object_id := some ("o") } = true ∧
      Fact.is_attribute { sampleFact 0 with object_id := some ("o") } = false) := by
  refine ⟨?_, ?_⟩
  · exact (attribute_relationship_flags { sampleFact 0 with value := some ("v") }).2.2.1 rfl rfl
  · exact (attribute_relationship_flags { sampleFact 0 with object_id := some ("o") }).2.2.2.1 rfl rfl

/-- C8: two Entity values compare equal via `Entity.__eq__` exactly
when their ids are equal, regardless of every other field. -/
theorem entity_eq_iff_id (e1 e2 : Entity) :
    entityEq e1 e2 = true ↔ e1.id = e2.id := by
  simp [entityEq]

/-- Counterexample to C9: a Fact carrying a negative `access_count`
passes validation (the code places no lower bound on the field), so a
Fact with `access_count = -5` is constructible. -/
theorem negative_access_count_constructible :
    validateFact (sampleFact (-5)) = .ok (sampleFact (-5)) ∧
    (sampleFact (-5)).access_count < 0 := by
  refine ⟨?_, by norm_num [sampleFact]⟩
  unfold validateFact
  rw [if_neg (by norm_num [sampleFact]), if_neg (by norm_num [sampleFact])]

/-- C9 amended: the constructor defaults `access_count` to 0, and
touch and decay preserve non-negativity; but validation does not
reject a negative `access_count` supplied explicitly. -/
theorem access_count_nonneg_preserved (s p fid : String) (now n : Nat)
    (f : Fact) (w : ℚ) :
    (freshFact s p fid now).access_count = 0 ∧
    (0 ≤ f.access_count → 0 ≤ (touch f n).access_count) ∧
    (decay f w).access_count = f.access_count := by
  refine ⟨rfl, ?_, rfl⟩
  intro h
  by_cases hc : f.access_count + 1 ≥ 3
  · have ht : touch f n = { f with access_count := f.access_count + 1, last_accessed := n, status := .confirmed } := by
      simp only [touch]
      rw [if_pos hc]
    rw [ht]
    show 0 ≤ f.access_count + 1
    omega
  · have ht : touch f n = { f with access_count := f.access_count + 1, last_accessed := n } := by
      simp only [touch]
      rw [if_neg hc]
    rw [ht]
    show 0 ≤ f.access_count + 1
    omega

/-- Closed instance of `access_count_nonneg_preserved`: touching a
fresh fact keeps the count non-negative. -/
theorem access_count_nonneg_preserved_witness :
    0 ≤ (touch (sampleFact 0) 1).access_count := by
  exact (access_count_nonneg_preserved ("s") ("p") ("f") 0 1 (sampleFact 0) 0).2.1 (by norm_num [sampleFact])

/-- Helper: the rendered line of every supplied fact appears in the
assembled prompt lines. -/
theorem mem_factLine (ctx : MemoryContext) (f : Fact)
    (hf : f ∈ ctx.relevant_facts) :
    renderFactLine f ∈ toPromptLines ctx := by
  have hne : ctx.relevant_facts.isEmpty = false := by
    cases hl : ctx.relevant_facts with
    | nil => rw [hl] at hf; exact absurd hf (List.not_mem_nil f)
    | cons a l => rfl
  unfold toPromptLines
  apply List.mem_append_right
  rw [hne]
  simp only [Bool.false_eq_true, if_false]
  exact List.mem_cons_of_mem _ (List.mem_append_left _ (List.mem_map_of_mem _ hf))

/-- Helper: every line rendered for a supplied entity appears in the
assembled prompt lines. -/
theorem mem_entityLine (ctx : MemoryContext) (e : Entity)
    (he : e ∈ ctx.relevant_entities) (l : String)
    (hl : l ∈ renderEntityLines e) :
    l ∈ toPromptLines ctx := by
  have hne : ctx.relevant_entities.isEmpty = false := by
    cases hc : ctx.relevant_entities with
    | nil => rw [hc] at he; exact absurd he (List.not_mem_nil e)
    | cons a t => rfl
  unfold toPromptLines
  apply List.mem_append_left
  apply List.mem_append_right
  rw [hne]
  simp only [Bool.false_eq_true, if_false]
  apply List.mem_cons_of_mem
  apply List.mem_append_left
  exact List.mem_flatten.mpr ⟨renderEntityLines e, List.mem_map_of_mem _ he, hl⟩

/-- C10: context assembly puts the rendered line of every supplied
relationship fact (predicate with object reference) and of every
supplied attribute fact (predicate with value) into the output lines,
likewise the name/type line of every supplied entity and its
description line whenever the description is present and non-empty
(the source guards it with Python truthiness, so an empty-string
description emits no line); the joined output is those lines, and on
fully empty input it is the well-formed heading section. -/
theorem prompt_context_rendering (ctx : MemoryContext) (f : Fact)
    (e : Entity) (oid v d : String) :
    "## Memory Context" ∈ toPromptLines ctx ∧
    to_prompt_context ctx = String.intercalate ("\n") (toPromptLines ctx) ∧
    to_prompt_context {} = "## Memory Context" ++ "\n" ∧
    (f ∈ ctx.relevant_facts → f.object_id = some oid →
      ("- " ++ f.predicate ++ ": relates to entity " ++ oid) ∈ toPromptLines ctx) ∧
    (f ∈ ctx.relevant_facts → f.object_id = none → f.value = some v →
      ("- " ++ f.predicate ++ ": " ++ v) ∈ toPromptLines ctx) ∧
    (e ∈ ctx.relevant_entities →
      ("- **" ++ e.name ++ "** (" ++ e.entity_type.value ++ ")") ∈ toPromptLines ctx) ∧
    (e ∈ ctx.relevant_entities → e.description = some d → d ≠ "" →
      ("  " ++ d) ∈ toPromptLines ctx) ∧
    (e.description = some ("") →
      renderEntityLines e = [("- **" ++ e.name ++ "** (" ++ e.entity_type.value ++ ")")]) := by
  refine ⟨?_, rfl, ?_, ?_, ?_, ?_, ?_, ?_⟩
  · unfold toPromptLines
    exact List.mem_append_left _ (List.mem_append_left _ (List.mem_cons_self _ _))
  · rfl
  · intro hf ho
    have hline : renderFactLine f = "- " ++ f.predicate ++ ": relates to entity " ++ oid := by
      simp [renderFactLine, Fact.is_relationship, ho, renderOpt]
    rw [← hline]
    exact mem_factLine ctx f hf
  · intro hf ho hv
    have hline : renderFactLine f = "- " ++ f.predicate ++ ": " ++ v := by
      simp [renderFactLine, Fact.is_relationship, ho, hv, renderOpt]
    rw [← hline]
    exact mem_factLine ctx f hf
  · intro he
    exact mem_entityLine ctx e he _ (List.mem_cons_self _ _)
  · intro he hd hne
    apply mem_entityLine ctx e he
    simp [renderEntityLines, hd, hne]
  · intro hd
    simp [renderEntityLines, hd]

/-- Sample entity used by witnesses. -/
def sampleEntity : Entity :=
  { id := "e1", entity_type := .project, name := "JACQ", description := some ("Cognitive Operating System"), created_at := 0, updated_at := 0 }

/-- Sample relationship fact used by witnesses. -/
def sampleRelFact : Fact :=
  { sampleFact 0 with object_id := some ("e2") }

/-- Sample attribute fact used by witnesses. -/
def sampleAttrFact : Fact :=
  { sampleFact 0 with value := some ("dark_mode") }

/-- Sample memory context used by witnesses. -/
def sampleContext : MemoryContext :=
  { relevant_entities := [sampleEntity], relevant_facts := [sampleRelFact, sampleAttrFact] }

/-- Closed instance of `prompt_context_rendering`: in a concrete
context the relationship line, the attribute line, the entity line
and the description line all appear among the assembled lines. -/
theorem prompt_context_rendering_witness :
    ("- " ++ sampleRelFact.predicate ++ ": relates to entity " ++ "e2") ∈ toPromptLines sampleContext ∧
    ("- " ++ sampleAttrFact.predicate ++ ": " ++ "dark_mode") ∈ toPromptLines sampleContext ∧
    ("- **" ++ sampleEntity.name ++ "** (" ++ sampleEntity.entity_type.value ++ ")") ∈ toPromptLines sampleContext ∧
    ("  " ++ "Cognitive Operating System") ∈ toPromptLines sampleContext := by
  refine ⟨?_, ?_, ?_, ?_⟩
  · exact (prompt_context_rendering sampleContext sampleRelFact sampleEntity ("e2") ("v") ("d")).2.2.2.1
      (List.mem_cons_self _ _) rfl
  · exact (prompt_context_rendering sampleContext sampleAttrFact sampleEntity ("o") ("dark_mode") ("d")).2.2.2.2.1
      (List.mem_cons_of_mem _ (List.mem_cons_self _ _)) rfl rfl
  · exact (prompt_context_rendering sampleContext sampleRelFact sampleEntity ("o") ("v") ("d")).2.2.2.2.2.1
      (List.mem_cons_self _ _)
  · exact (prompt_context_rendering sampleContext sampleRelFact sampleEntity ("o") ("v") ("Cognitive Operating System")).2.2.2.2.2.2.1
      (List.mem_cons_self _ _) rfl (by decide)

end JACQ
